import Mathlib

/-!
# Verification of the lsa-scraper Call Audit Engine

Shallow embedding of the call-audit engine of the `lsa-scraper` repository,
centred on `src/vapi_caller.py` (the `VapiCaller` class and `run_audit`) and
its duplicated overnight variant `src/overnight_caller.py`.

Transcripts and other manipulated text are modelled as `List Char`; Python
string operations (`lower`, `replace`, `strip`, `split`, `startswith`,
`in`) are given explicit executable definitions below with the semantics of
their CPython counterparts on the ASCII text the engine handles.
-/

namespace LsaScraper

/-- `s.data` of a string literal: transcripts are handled as `List Char`. -/
def strL (s : String) : List Char := s.data

/-- ASCII whitespace, as recognised by Python `str.strip()` on ASCII text. -/
def isSpaceChar (c : Char) : Bool :=
  c = ' ' || c = '\t' || c = '\n' || c = '\r' || c = '\x0b' || c = '\x0c'

/-- Python `s.lower()` (ASCII case folding, which is all the engine feeds it). -/
def pyLower (s : List Char) : List Char := s.map Char.toLower

/-- Python `s.strip()`: remove leading and trailing whitespace. -/
def pyStrip (s : List Char) : List Char :=
  List.rdropWhile isSpaceChar (List.dropWhile isSpaceChar s)

/-- Worker for `pyReplace`, structurally recursive on a fuel argument.
Each step consumes one unit of fuel and at least one character of `s`,
so fuel `s.length` always suffices. -/
def pyReplaceAux (p : List Char) : Nat → List Char → List Char
  | 0, s => s
  | _ + 1, [] => []
  | fuel + 1, c :: rest =>
    if p.isPrefixOf (c :: rest) then
      pyReplaceAux p fuel ((c :: rest).drop p.length)
    else
      c :: pyReplaceAux p fuel rest

/-- Python `s.replace(p, "")` for a non-empty pattern `p`: remove all
non-overlapping occurrences of `p`, scanning left to right.  (The engine
only ever replaces with the empty string.) -/
def pyReplace (p : List Char) (s : List Char) : List Char :=
  if p.isEmpty then s else pyReplaceAux p s.length s

/-- Python `p in s`: substring membership. -/
def occursIn (p : List Char) : List Char → Bool
  | [] => p.isEmpty
  | c :: rest => p.isPrefixOf (c :: rest) || occursIn p rest

/-- Python `s.split('\n')`. -/
def splitLines : List Char → List (List Char)
  | [] => [[]]
  | c :: rest =>
    if c = '\n' then [] :: splitLines rest
    else
      match splitLines rest with
      | [] => [[c]]
      | l :: ls => (c :: l) :: ls

/-- Python `'\n'.join(lines)`. -/
def joinLines (lines : List (List Char)) : List Char :=
  List.intercalate ['\n'] lines

/-! ## Outcome classifier (`VapiCaller._classify_response` and helpers) -/

/-- The classification dict produced by `_classify_response`,
`_grok_classify` and `_fallback_classify`: fields `answered_by`,
`is_qualified`, `confidence`, `notes`. -/
structure Classification where
  answered_by : String
  is_qualified : Bool
  confidence : String
  notes : String
deriving DecidableEq, Repr

/-- The parsed JSON object extracted from the Grok response in
`_grok_classify`; each field may be absent (`result.get` defaults apply). -/
structure GrokRaw where
  answered_by : Option String
  is_qualified : Option Bool
  confidence : Option String
  notes : Option String
deriving DecidableEq, Repr

/-- The Grok (Tier 2) call, abstracted as an oracle.  `none` stands for any
Tier-2 failure caught by the `except` in `_classify_response`: missing
`XAI_API_KEY`, a non-200 API response, or a JSON parse failure. -/
def GrokOracle : Type := List Char → List Char → Int → Option GrokRaw

/-- The `result.get(..., default)` normalisation at the end of
`_grok_classify`. -/
def ensureFields (g : GrokRaw) : Classification where
  answered_by := g.answered_by.getD "unknown"
  is_qualified := g.is_qualified.getD false
  confidence := g.confidence.getD "medium"
  notes := g.notes.getD "Classified by Grok 4 Fast"

/-- `VapiCaller._grok_classify`: consult the oracle, normalise the parsed
fields.  `none` propagates any of its failure modes to the caller (in the
Python source, as a raised exception). -/
def grok_classify (oracle : GrokOracle) (transcript end_reason : List Char)
    (duration : Int) : Option Classification :=
  (oracle transcript end_reason duration).map ensureFields

/-- `disclaimer_phrases` of `VapiCaller._fallback_classify`. -/
def disclaimer_phrases : List (List Char) :=
  [strL "this call may be recorded", strL "this call is recorded",
   strL "this call will be recorded", strL "this call may be monitored",
   strL "for quality assurance", strL "for quality purposes",
   strL "for training purposes", strL "for quality and training"]

/-- `voicemail_words` of `VapiCaller._fallback_classify`. -/
def voicemail_words : List (List Char) :=
  [strL "leave a message", strL "after the beep", strL "voicemail",
   strL "not available", strL "mailbox", strL "at the tone",
   strL "leave your name"]

/-- `live_person_words` of `VapiCaller._fallback_classify`.  The phrase
written `i'll transfer` in the source is assembled around an explicit
apostrophe character. -/
def live_person_words : List (List Char) :=
  [strL "how may i help", strL "how can i help", strL "is anyone there",
   strL "hello?", strL "are you calling about", strL "what is your name",
   strL "can i get your name", strL "what is this regarding",
   strL "i" ++ [Char.ofNat 39] ++ strL "ll transfer", strL "let me connect"]

/-- The disclaimer-stripping transformation of `_fallback_classify`
(lines 449-452): sequentially replace each disclaimer phrase with the
empty string, then trim whitespace. -/
def stripDisclaimerPhrases (s : List Char) : List Char :=
  pyStrip (disclaimer_phrases.foldl (fun acc p => pyReplace p acc) s)

/-- The `cleaned` transcript computed by `_fallback_classify`: lower-case
the input, then strip disclaimer phrases. -/
def fallbackCleaned (transcript : List Char) : List Char :=
  stripDisclaimerPhrases (pyLower transcript)

/-- `VapiCaller._fallback_classify` (Tier 3 keyword fallback). -/
def fallback_classify (transcript _end_reason : List Char) (_duration : Int) :
    Classification :=
  let cleaned := fallbackCleaned transcript
  if live_person_words.any (fun w => occursIn w cleaned) then
    ⟨"answering_service", false, "medium", "Live person detected (fallback classifier)"⟩
  else if voicemail_words.any (fun w => occursIn w cleaned) then
    ⟨"voicemail", true, "medium", "Voicemail detected (fallback classifier)"⟩
  else if cleaned.isEmpty || cleaned.length < 10 then
    ⟨"inconclusive", true, "low", "Only disclaimers heard, call ended too early (fallback) - retry needed"⟩
  else
    ⟨"unknown", false, "low", "Could not classify (fallback) - manual review needed"⟩

/-- The `user_transcript` computed by `_classify_response` (lines 334-339):
drop lines starting with `system:` from the transcript, rejoin, trim.
An empty transcript is falsy in Python and short-circuits to `""`. -/
def userTranscript (transcript : List Char) : List Char :=
  if transcript.isEmpty then []
  else
    pyStrip (joinLines
      (((splitLines (pyStrip transcript)).filter
        (fun l => !(strL "system:").isPrefixOf l))))

/-- `VapiCaller._classify_response`: the tier cascade.
Tier 0 — end-reason rules; Tier 1 — transcript absence; Tier 2 — the Grok
oracle; Tier 3 — keyword fallback on any Tier-2 failure. -/
def classify_response (oracle : GrokOracle) (transcript end_reason : List Char)
    (duration : Int) : Classification :=
  if end_reason = strL "customer-did-not-answer" then
    ⟨"no_answer", true, "high", "NO ANSWER - QUALIFIED LEAD! 🎯"⟩
  else if end_reason = strL "customer-busy" then
    ⟨"busy", false, "high", "Line busy - retry later"⟩
  else
    let user := userTranscript transcript
    if user.isEmpty || user.length < 10 then
      ⟨"no_answer", true, "high", "Silence/No answer - QUALIFIED LEAD! 🎯"⟩
    else
      match grok_classify oracle user end_reason duration with
      | some r => r
      | none => fallback_classify user end_reason duration

/-! ## Provider data, completion poller and dispatcher -/

/-- One entry of the provider's `messages[]` array; `content`/`message`
are `""` (here `[]`) when the key is absent. -/
structure CallMessage where
  role : List Char
  content : List Char
  message : List Char
deriving DecidableEq, Repr

/-- The provider's `get_call` payload for a terminal call, with the fields
`_analyze_call` reads. -/
structure ProviderCall where
  endedReason : List Char
  duration : Int
  messages : List CallMessage
deriving DecidableEq, Repr

/-- The transcript text built by `_analyze_call`:
`content = msg.get("content","") or msg.get("message","")`, and every
message with non-empty content contributes `f"{role}: {content}\n"`. -/
def buildTranscript (messages : List CallMessage) : List Char :=
  messages.foldl
    (fun acc m =>
      let content := if m.content.isEmpty then m.message else m.content
      if content.isEmpty then acc
      else acc ++ m.role ++ strL ": " ++ content ++ ['\n'])
    []

/-- The per-target result dict assembled by `make_call` /
`_wait_for_completion` / `_analyze_call` and recorded by `run_audit`. -/
structure ResultRecord where
  status : String
  error : Option String
  transcript : Option (List Char)
  analysis : Option Classification
  phone : List Char
  business_name : List Char
deriving DecidableEq, Repr

/-- `_analyze_call`: build the transcript text and classify it. -/
def analyzeCall (oracle : GrokOracle) (call : ProviderCall) : ResultRecord :=
  let transcriptText := buildTranscript call.messages
  { status := "completed"
    error := none
    transcript := some transcriptText
    analysis := some (classify_response oracle transcriptText call.endedReason call.duration)
    phone := []
    business_name := [] }

/-- What one status poll of `_wait_for_completion` observes.
`transportFail` stands for every swallowed transient failure: a non-200
response, an empty body, a connection error, a timeout of the status
request itself, or malformed JSON.  `inProgress` is a well-formed response
whose `status` is neither `ended` nor `failed`. -/
inductive PollOutcome where
  | transportFail
  | inProgress
  | terminal (call : ProviderCall)
deriving DecidableEq, Repr

/-- Whether a poll observation is a terminal provider state. -/
def PollOutcome.isTerminal : PollOutcome → Bool
  | .terminal _ => true
  | _ => false

/-- The record `{"status": "timeout", ...}` returned when the ceiling
elapses: no transcript, no analysis. -/
def timeoutRecord : ResultRecord :=
  { status := "timeout", error := none, transcript := none
    analysis := none, phone := [], business_name := [] }

/-- `VapiCaller._wait_for_completion`: poll the provider until a terminal
status or until the ceiling elapses.  `polls i` is the outcome of the
`i`-th poll and `fuel` is the number of polls the `timeout` ceiling still
allows (the varying 2s/3s poll interval only affects how many polls fit
into the ceiling, not which outcomes are seen). -/
def waitForCompletion (oracle : GrokOracle) (polls : Nat → PollOutcome) :
    Nat → Nat → ResultRecord
  | _, 0 => timeoutRecord
  | i, fuel + 1 =>
    match polls i with
    | .terminal call => analyzeCall oracle call
    | _ => waitForCompletion oracle polls (i + 1) fuel

/-- A provider HTTP response, with the fields `make_call` reads from the
`POST /call/phone` reply. -/
structure HttpResp where
  status : Nat
  text : String
  callId : List Char
deriving DecidableEq, Repr

/-- `response.status_code in [200, 201]`. -/
def dispatchStatusOk (r : HttpResp) : Bool :=
  r.status == 200 || r.status == 201

/-- The dispatch section of `VapiCaller.make_call` (lines 196-207): one
`requests.post` — the response to attempt 0 — and no retry loop of any
kind.  Returns the outcome together with the number of outbound call
requests submitted. -/
def makeCallDispatch (provider : Nat → HttpResp) :
    Except String (List Char) × Nat :=
  let resp := provider 0
  (if dispatchStatusOk resp then .ok resp.callId else .error resp.text, 1)

/-- The provider-side behaviour governing one `make_call` invocation.
`raises` models an exception escaping `make_call` itself (caught by the
`try/except` in `run_audit`). -/
structure World where
  raises : Option String
  provider : Nat → HttpResp
  polls : Nat → PollOutcome
  pollBudget : Nat
  oracle : GrokOracle

/-- `VapiCaller.make_call`: dispatch once; a non-success response becomes a
`status="error"` record; otherwise wait for completion and stamp the
phone/business fields onto the result. -/
def makeCall (w : World) (phone business : List Char) : ResultRecord :=
  match (makeCallDispatch w.provider).1 with
  | .error e =>
    { status := "error", error := some e, transcript := none
      analysis := none, phone := phone, business_name := business }
  | .ok _ =>
    let r := waitForCompletion w.oracle w.polls 0 w.pollBudget
    { r with phone := phone, business_name := business }

/-! ## Run controller (`run_audit`) -/

/-- One lead of the loaded lead list. -/
structure Lead where
  phone : List Char
  name : List Char
  location : List Char
  is_24h : Bool
deriving DecidableEq, Repr

/-- The run controller's mutable state: the accumulated `results` list, the
phones `make_call` was invoked for, and the successive auto-saved
checkpoints (each checkpoint persists the full accumulated result list). -/
structure RunState where
  results : List ResultRecord
  dials : List (List Char)
  checkpoints : List (List ResultRecord)
deriving DecidableEq, Repr

/-- The record built by `run_audit`'s `except` branch when `make_call`
raises. -/
def exceptionRecord (lead : Lead) (e : String) : ResultRecord :=
  { status := "error", error := some e, transcript := none
    analysis := none, phone := lead.phone, business_name := lead.name }

/-- One iteration of `run_audit`'s `for` loop: invoke `make_call` for the
lead (recording the dial), append exactly one result — the exception
branch also yields a record — and auto-save the full accumulated result
list when the 1-based call count `i` hits a multiple of `saveEvery`. -/
def runStep (worlds : Nat → World) (saveEvery : Nat) (lead : Lead)
    (st : RunState) : RunState :=
  let record :=
    match (worlds st.results.length).raises with
    | some e => exceptionRecord lead e
    | none => makeCall (worlds st.results.length) lead.phone lead.name
  let newResults := st.results ++ [record]
  { results := newResults
    dials := st.dials ++ [lead.phone]
    checkpoints :=
      if newResults.length % saveEvery == 0 then st.checkpoints ++ [newResults]
      else st.checkpoints }

/-- The body of `run_audit`'s `for` loop, iterated over the lead list. -/
def runLoop (worlds : Nat → World) (saveEvery : Nat) :
    List Lead → RunState → RunState
  | [], st => st
  | lead :: rest, st =>
    runLoop worlds saveEvery rest (runStep worlds saveEvery lead st)

/-- The lead list `run_audit` actually processes: the 24/7 filter followed
by `leads[:limit]`. -/
def processedLeads (leads : List Lead) (limit : Nat) (only24h : Bool) :
    List Lead :=
  (if only24h then leads.filter (·.is_24h) else leads).take limit

/-- `run_audit` (the loop of lines 645-693; the overnight variant's `main`
is the same controller with `saveEvery = SAVE_EVERY = 10` instead of 25):
filter and truncate the lead list, then run the sequential call loop from
an empty state. -/
def run_audit (worlds : Nat → World) (saveEvery : Nat) (leads : List Lead)
    (limit : Nat) (only24h : Bool) : RunState :=
  runLoop worlds saveEvery (processedLeads leads limit only24h) ⟨[], [], []⟩

/-! ## Lemmas about the string primitives -/

/-- If the pattern does not occur in `s`, removal is the identity,
whatever the fuel. -/
theorem pyReplaceAux_of_not_occursIn (p : List Char) :
    ∀ (fuel : Nat) (s : List Char), occursIn p s = false →
      pyReplaceAux p fuel s = s := by
  intro fuel
  induction fuel with
  | zero => intro s _; rfl
  | succ n ih =>
    intro s hs
    cases s with
    | nil => rfl
    | cons c rest =>
      rw [occursIn] at hs
      rcases Bool.or_eq_false_iff.mp hs with ⟨hpre, hrest⟩
      rw [pyReplaceAux, if_neg (by simp [hpre]), ih rest hrest]

/-- `pyReplace` is the identity when the pattern does not occur. -/
theorem pyReplace_of_not_occursIn (p s : List Char)
    (h : occursIn p s = false) : pyReplace p s = s := by
  rw [pyReplace]
  split
  · rfl
  · exact pyReplaceAux_of_not_occursIn p s.length s h

/-- Replacing a list of phrases none of which occurs is the identity. -/
theorem foldl_pyReplace_of_not_occursIn :
    ∀ (ps : List (List Char)) (s : List Char),
      (∀ p ∈ ps, occursIn p s = false) →
      ps.foldl (fun acc p => pyReplace p acc) s = s := by
  intro ps
  induction ps with
  | nil => intro s _; rfl
  | cons p ps ih =>
    intro s hs
    rw [List.foldl_cons, pyReplace_of_not_occursIn p s (hs p (by simp))]
    exact ih s fun q hq => hs q (by simp [hq])

/-- A list that survives a left `dropWhile` also survives it after a right
`rdropWhile`. -/
theorem dropWhile_rdropWhile_of_dropWhile_eq_self (p : Char → Bool)
    (u : List Char) (hu : List.dropWhile p u = u) :
    List.dropWhile p (List.rdropWhile p u) = List.rdropWhile p u := by
  rcases List.rdropWhile_prefix p u with ⟨t, ht⟩
  cases hv : List.rdropWhile p u with
  | nil => rfl
  | cons a v =>
    rw [hv] at ht
    have ha : p a = false := by
      have hu' : List.dropWhile p (a :: (v ++ t)) = a :: (v ++ t) := by
        rw [List.cons_append] at ht
        rw [ht]
        exact hu
      by_contra hcon
      rw [List.dropWhile_cons_of_pos (by simp_all)] at hu'
      have hlen := congrArg List.length hu'
      have hle := (List.dropWhile_suffix (l := v ++ t) p).sublist.length_le
      rw [List.length_cons] at hlen
      omega
    rw [List.dropWhile_cons_of_neg (by simp [ha])]

/-- Python `strip` is idempotent. -/
theorem pyStrip_idempotent (s : List Char) : pyStrip (pyStrip s) = pyStrip s := by
  rw [pyStrip, pyStrip]
  rw [dropWhile_rdropWhile_of_dropWhile_eq_self isSpaceChar _
    (List.dropWhile_idempotent _ _)]
  exact List.rdropWhile_idempotent _ _

/-- `pyStrip` applied to an already-stripped string is the identity. -/
theorem pyStrip_stripDisclaimerPhrases (s : List Char) :
    pyStrip (stripDisclaimerPhrases s) = stripDisclaimerPhrases s := by
  rw [stripDisclaimerPhrases]
  exact pyStrip_idempotent _

/-! ## Theorems -/

/-- C1: Tier 0 is deterministic on end-reason alone: whatever the
transcript, the duration and the Tier-2 oracle, end-reason
`customer-did-not-answer` classifies as `no_answer`/qualified/high and
`customer-busy` as `busy`/unqualified/high. -/
theorem c1_tier0_deterministic_on_end_reason :
    ∀ (oracle : GrokOracle) (transcript : List Char) (duration : Int),
      classify_response oracle transcript (strL "customer-did-not-answer") duration =
        ⟨"no_answer", true, "high", "NO ANSWER - QUALIFIED LEAD! 🎯"⟩ ∧
      classify_response oracle transcript (strL "customer-busy") duration =
        ⟨"busy", false, "high", "Line busy - retry later"⟩ := by
  intro oracle t d
  constructor
  · rw [classify_response, if_pos rfl]
  · rw [classify_response, if_neg (by decide), if_pos rfl]

/-- C5: Tier 1 transcript absence: when no Tier-0 end-reason applies and
the transcript, after dropping the agent's own `system:` lines, is empty
or shorter than 10 characters, the call classifies as
`no_answer`/qualified/high — independently of the Tier-2 oracle and
Tier-3 fallback. -/
theorem c5_tier1_transcript_absence :
    ∀ (oracle : GrokOracle) (transcript end_reason : List Char) (duration : Int),
      end_reason ≠ strL "customer-did-not-answer" →
      end_reason ≠ strL "customer-busy" →
      (userTranscript transcript).length < 10 →
      classify_response oracle transcript end_reason duration =
        ⟨"no_answer", true, "high", "Silence/No answer - QUALIFIED LEAD! 🎯"⟩ := by
  intro oracle t er d h1 h2 h3
  rw [classify_response, if_neg h1, if_neg h2]
  simp [h3]

/-- C5 witness: the spec scenario — empty transcript,
`end_reason = "silence-timed-out"`, duration 18 — classifies as
`no_answer`/qualified/high. -/
theorem c5_tier1_transcript_absence_witness :
    classify_response (fun _ _ _ => none) (strL "") (strL "silence-timed-out") 18 =
      ⟨"no_answer", true, "high", "Silence/No answer - QUALIFIED LEAD! 🎯"⟩ :=
  c5_tier1_transcript_absence (fun _ _ _ => none) (strL "") (strL "silence-timed-out")
    18 (by decide) (by decide) (by decide)

/-- C3: whenever Tier 2 fails (the oracle yields `none`: missing API key,
non-200 response, or JSON parse failure) on a call not decided by Tiers
0-1, classification returns exactly the Tier-3 keyword-fallback result for
the same cleaned transcript, end-reason and duration; the failure never
escapes and never produces an answer by itself. -/
theorem c3_tier2_failure_falls_back_to_tier3 :
    ∀ (oracle : GrokOracle) (transcript end_reason : List Char) (duration : Int),
      end_reason ≠ strL "customer-did-not-answer" →
      end_reason ≠ strL "customer-busy" →
      10 ≤ (userTranscript transcript).length →
      oracle (userTranscript transcript) end_reason duration = none →
      classify_response oracle transcript end_reason duration =
        fallback_classify (userTranscript transcript) end_reason duration := by
  intro oracle t er d h1 h2 h3 h4
  rw [classify_response, if_neg h1, if_neg h2]
  have he : (userTranscript t).isEmpty = false := by
    cases hu : userTranscript t with
    | nil => rw [hu] at h3; exact absurd h3 (by decide)
    | cons a l => rfl
  simp [he, grok_classify, h4, Nat.not_lt.mpr h3]

/-- C3 witness: a concrete Tier-2-reaching call with a failing oracle falls
back to the keyword classifier. -/
theorem c3_tier2_failure_falls_back_to_tier3_witness :
    classify_response (fun _ _ _ => none)
        (strL "user: hello how are you doing") (strL "exceeded-max-duration") 45 =
      fallback_classify (userTranscript (strL "user: hello how are you doing"))
        (strL "exceeded-max-duration") 45 :=
  c3_tier2_failure_falls_back_to_tier3 (fun _ _ _ => none)
    (strL "user: hello how are you doing") (strL "exceeded-max-duration") 45
    (by decide) (by decide) (by decide) rfl

/-- C6: the keyword fallback checks live-person phrases first, then
voicemail phrases, then returns `inconclusive` on negligible cleaned text
and otherwise `unknown` with confidence `low`; a cleaned transcript
containing both a live-person and a voicemail phrase gets the live-person
verdict, and the scenario transcript `"how may I help you today"` yields
`answering_service`/unqualified. -/
theorem c6_fallback_ordered_checks :
    (∀ (t er : List Char) (d : Int),
      live_person_words.any (fun w => occursIn w (fallbackCleaned t)) = true →
      voicemail_words.any (fun w => occursIn w (fallbackCleaned t)) = true →
      fallback_classify t er d =
        ⟨"answering_service", false, "medium", "Live person detected (fallback classifier)"⟩) ∧
    (∀ (t er : List Char) (d : Int),
      live_person_words.any (fun w => occursIn w (fallbackCleaned t)) = false →
      voicemail_words.any (fun w => occursIn w (fallbackCleaned t)) = true →
      fallback_classify t er d =
        ⟨"voicemail", true, "medium", "Voicemail detected (fallback classifier)"⟩) ∧
    (∀ (t er : List Char) (d : Int),
      live_person_words.any (fun w => occursIn w (fallbackCleaned t)) = false →
      voicemail_words.any (fun w => occursIn w (fallbackCleaned t)) = false →
      (fallbackCleaned t).length < 10 →
      fallback_classify t er d =
        ⟨"inconclusive", true, "low", "Only disclaimers heard, call ended too early (fallback) - retry needed"⟩) ∧
    (∀ (t er : List Char) (d : Int),
      live_person_words.any (fun w => occursIn w (fallbackCleaned t)) = false →
      voicemail_words.any (fun w => occursIn w (fallbackCleaned t)) = false →
      10 ≤ (fallbackCleaned t).length →
      fallback_classify t er d =
        ⟨"unknown", false, "low", "Could not classify (fallback) - manual review needed"⟩) ∧
    (∀ (er : List Char) (d : Int),
      fallback_classify (strL "how may I help you today") er d =
        ⟨"answering_service", false, "medium", "Live person detected (fallback classifier)"⟩) := by
  refine ⟨?_, ?_, ?_, ?_, ?_⟩
  · intro t er d hl _
    rw [fallback_classify]
    simp [hl]
  · intro t er d hl hv
    rw [fallback_classify]
    simp [hl, hv]
  · intro t er d hl hv hlen
    rw [fallback_classify]
    simp [hl, hv, hlen]
  · intro t er d hl hv hlen
    have he : (fallbackCleaned t).isEmpty = false := by
      cases hu : fallbackCleaned t with
      | nil => rw [hu] at hlen; exact absurd hlen (by decide)
      | cons a l => rfl
    rw [fallback_classify]
    simp [hl, hv, he, Nat.not_lt.mpr hlen]
  · intro er d
    have h := (by decide :
      live_person_words.any
        (fun w => occursIn w (fallbackCleaned (strL "how may I help you today"))) = true)
    rw [fallback_classify]
    simp [h]

/-- C6 witness: a cleaned transcript containing both a live-person phrase
and a voicemail phrase is classified as the live-person verdict. -/
theorem c6_fallback_ordered_checks_witness :
    fallback_classify (strL "how can I help you? or leave a message") (strL "x") 30 =
      ⟨"answering_service", false, "medium", "Live person detected (fallback classifier)"⟩ :=
  c6_fallback_ordered_checks.1 (strL "how can I help you? or leave a message")
    (strL "x") 30 (by decide) (by decide)

/-- C7 counterexample: disclaimer stripping is not idempotent.  Removing
the first occurrence of `this call may be recorded` from this transcript
splices its surroundings into a fresh occurrence of the same phrase, which
only a second pass removes: one pass leaves
`this call may be recorded`, two passes leave the empty string. -/
theorem c7_counterexample_not_idempotent :
    stripDisclaimerPhrases (stripDisclaimerPhrases
        (strL "this cathis call may be recordedll may be recorded")) ≠
      stripDisclaimerPhrases
        (strL "this cathis call may be recordedll may be recorded") := by
  decide

/-- C7 amended: disclaimer stripping is idempotent on every transcript
whose once-stripped form contains no disclaimer phrase (removal can
otherwise splice text into a new occurrence, as the counterexample
shows). -/
theorem c7_amended_idempotent_without_respliced_phrase :
    ∀ t : List Char,
      (disclaimer_phrases.all
        fun p => !occursIn p (stripDisclaimerPhrases t)) = true →
      stripDisclaimerPhrases (stripDisclaimerPhrases t) =
        stripDisclaimerPhrases t := by
  intro t h
  have hocc : ∀ p ∈ disclaimer_phrases,
      occursIn p (stripDisclaimerPhrases t) = false := by
    intro p hp
    have := List.all_eq_true.mp h p hp
    simpa using this
  conv_lhs => rw [stripDisclaimerPhrases]
  rw [foldl_pyReplace_of_not_occursIn disclaimer_phrases _ hocc]
  exact pyStrip_stripDisclaimerPhrases t

/-- C7 witness: on a transcript whose stripped form retains no disclaimer
phrase, stripping twice equals stripping once. -/
theorem c7_amended_idempotent_witness :
    stripDisclaimerPhrases (stripDisclaimerPhrases
        (strL "hello this call may be recorded bye")) =
      stripDisclaimerPhrases (strL "hello this call may be recorded bye") :=
  c7_amended_idempotent_without_respliced_phrase
    (strL "hello this call may be recorded bye") (by decide)

/-- C4: the completion wait is total and transport-tolerant: a transient
transport failure (non-200, empty body, connection error, poll timeout,
malformed JSON — all collapsed into `transportFail`) is swallowed and the
loop simply retries at the next poll; and when no poll within the ceiling
observes a terminal `ended`/`failed` status, the wait returns the
`status = "timeout"` record, which carries no transcript — never an
error. -/
theorem c4_wait_loop_swallows_transport_failures_then_times_out :
    (∀ (oracle : GrokOracle) (polls : Nat → PollOutcome) (i fuel : Nat),
      polls i = PollOutcome.transportFail →
      waitForCompletion oracle polls i (fuel + 1) =
        waitForCompletion oracle polls (i + 1) fuel) ∧
    (∀ (oracle : GrokOracle) (polls : Nat → PollOutcome) (i fuel : Nat),
      (∀ j, (polls j).isTerminal = false) →
      waitForCompletion oracle polls i fuel = timeoutRecord) ∧
    timeoutRecord.status = "timeout" ∧ timeoutRecord.transcript = none := by
  refine ⟨?_, ?_, rfl, rfl⟩
  · intro oracle polls i fuel h
    rw [waitForCompletion, h]
  · intro oracle polls i fuel h
    induction fuel generalizing i with
    | zero => rfl
    | succ n ih =>
      rw [waitForCompletion]
      cases hp : polls i with
      | terminal c =>
        have := h i
        rw [hp] at this
        exact absurd this (by simp [PollOutcome.isTerminal])
      | transportFail => exact ih (i + 1)
      | inProgress => exact ih (i + 1)

/-- C4 witness: a wait whose polls all fail at the transport level returns
the timeout record. -/
theorem c4_wait_loop_witness :
    waitForCompletion (fun _ _ _ => none) (fun _ => PollOutcome.transportFail) 0 5 =
      timeoutRecord :=
  c4_wait_loop_swallows_transport_failures_then_times_out.2.1
    (fun _ _ _ => none) (fun _ => PollOutcome.transportFail) 0 5 (fun _ => rfl)

/-- C8 counterexample: a rate-limited (429) dispatch is not retried.
`make_call` submits exactly one outbound call request and surfaces the
rate-limit response immediately as a terminal error — there is no
bounded-retry/backoff loop at this layer. -/
theorem c8_counterexample_rate_limit_not_retried :
    ¬ (1 < (makeCallDispatch (fun _ => ⟨429, "Too Many Requests", []⟩)).2) ∧
    (makeCallDispatch (fun _ => ⟨429, "Too Many Requests", []⟩)).1 =
      Except.error "Too Many Requests" :=
  ⟨by decide, rfl⟩

/-- C8 amended: every dispatch invocation submits exactly one outbound
call request, and every non-success response — rate-limiting included —
is surfaced immediately as a terminal dispatch error carrying the raw
provider message, with no retry. -/
theorem c8_amended_exactly_one_request_no_retry :
    ∀ provider : Nat → HttpResp,
      (makeCallDispatch provider).2 = 1 ∧
      (dispatchStatusOk (provider 0) = false →
        (makeCallDispatch provider).1 = Except.error (provider 0).text) := by
  intro provider
  refine ⟨rfl, fun h => ?_⟩
  rw [makeCallDispatch]
  simp [h]

/-- C8 witness: a 500 response produces one request and an immediate
terminal error carrying the provider message. -/
theorem c8_amended_exactly_one_request_witness :
    (makeCallDispatch (fun _ => ⟨500, "Internal Server Error", []⟩)).2 = 1 ∧
    (makeCallDispatch (fun _ => ⟨500, "Internal Server Error", []⟩)).1 =
      Except.error "Internal Server Error" :=
  ⟨(c8_amended_exactly_one_request_no_retry (fun _ => ⟨500, "Internal Server Error", []⟩)).1,
   (c8_amended_exactly_one_request_no_retry (fun _ => ⟨500, "Internal Server Error", []⟩)).2
     (by decide)⟩

/-- One loop iteration appends exactly one result record. -/
theorem runStep_results_length (worlds : Nat → World) (saveEvery : Nat)
    (lead : Lead) (st : RunState) :
    (runStep worlds saveEvery lead st).results.length =
      st.results.length + 1 := by
  dsimp only [runStep]
  simp

/-- One loop iteration dials exactly the lead's phone. -/
theorem runStep_dials (worlds : Nat → World) (saveEvery : Nat)
    (lead : Lead) (st : RunState) :
    (runStep worlds saveEvery lead st).dials = st.dials ++ [lead.phone] := by
  dsimp only [runStep]

/-- The run loop appends exactly one result record per lead. -/
theorem runLoop_results_length (worlds : Nat → World) (saveEvery : Nat) :
    ∀ (leads : List Lead) (st : RunState),
      (runLoop worlds saveEvery leads st).results.length =
        st.results.length + leads.length := by
  intro leads
  induction leads with
  | nil => intro st; rw [runLoop]; simp
  | cons lead rest ih =>
    intro st
    rw [runLoop, ih, runStep_results_length]
    simp
    omega

/-- The run loop dials every processed lead's phone, in order. -/
theorem runLoop_dials (worlds : Nat → World) (saveEvery : Nat) :
    ∀ (leads : List Lead) (st : RunState),
      (runLoop worlds saveEvery leads st).dials =
        st.dials ++ leads.map (·.phone) := by
  intro leads
  induction leads with
  | nil => intro st; rw [runLoop]; simp
  | cons lead rest ih =>
    intro st
    rw [runLoop, ih, runStep_dials]
    simp

/-- C2: the run controller appends exactly one result record per processed
target, whatever the per-call behaviour — dispatch failure, poll timeout,
Tier-2 classification failure, or even an exception out of `make_call`
(all reachable through `worlds`) — and no per-target error aborts the
loop: the result count equals the processed-target count. -/
theorem c2_exactly_one_result_per_target :
    ∀ (worlds : Nat → World) (saveEvery : Nat) (leads : List Lead)
      (limit : Nat) (only24h : Bool),
      (run_audit worlds saveEvery leads limit only24h).results.length =
        (processedLeads leads limit only24h).length := by
  intro worlds saveEvery leads limit only24h
  rw [run_audit, runLoop_results_length]
  simp

/-- C9 counterexample: deduplication does not happen.  A lead list whose
two entries share one phone number dials that number twice — the claim
that a phone already present in the accumulated result set is skipped is
false of the code. -/
theorem c9_counterexample_duplicate_phone_dialed_twice :
    ¬ (List.count (strL "+15551230000")
        (run_audit
          (fun _ => ⟨some "boom", fun _ => ⟨200, "", []⟩,
                     fun _ => PollOutcome.inProgress, 0, fun _ _ _ => none⟩)
          25
          [⟨strL "+15551230000", strL "Firm A", [], false⟩,
           ⟨strL "+15551230000", strL "Firm B", [], false⟩]
          10 false).dials ≤ 1) := by
  decide

/-- C9 amended: no deduplication is performed: the controller dials every
processed target exactly once, in order, regardless of whether its phone
number already appears among the accumulated results, so an overlapping
lead list re-dials the shared numbers. -/
theorem c9_amended_every_processed_target_dialed :
    ∀ (worlds : Nat → World) (saveEvery : Nat) (leads : List Lead)
      (limit : Nat) (only24h : Bool),
      (run_audit worlds saveEvery leads limit only24h).dials =
        (processedLeads leads limit only24h).map (·.phone) := by
  intro worlds saveEvery leads limit only24h
  rw [run_audit, runLoop_dials]
  simp

/-- One loop iteration preserves the checkpoint shape: the checkpoints are
exactly the full result prefixes at the successive multiples of
`saveEvery`. -/
theorem runStep_checkpoints (worlds : Nat → World) (saveEvery : Nat)
    (lead : Lead) (st : RunState)
    (h : st.checkpoints = (List.range (st.results.length / saveEvery)).map
      (fun j => st.results.take ((j + 1) * saveEvery))) :
    (runStep worlds saveEvery lead st).checkpoints =
      (List.range ((runStep worlds saveEvery lead st).results.length / saveEvery)).map
        (fun j => (runStep worlds saveEvery lead st).results.take
          ((j + 1) * saveEvery)) := by
  have htake : ∀ r : ResultRecord, ∀ j ∈ List.range (st.results.length / saveEvery),
      (st.results ++ [r]).take ((j + 1) * saveEvery) =
        st.results.take ((j + 1) * saveEvery) := by
    intro r j hj
    apply List.take_append_of_le_length
    have hj' : j + 1 ≤ st.results.length / saveEvery := List.mem_range.mp hj
    calc (j + 1) * saveEvery
        ≤ st.results.length / saveEvery * saveEvery :=
          Nat.mul_le_mul_right _ hj'
      _ ≤ st.results.length := Nat.div_mul_le_self _ _
  dsimp only [runStep]
  split
  case isTrue hmod =>
    have hdvd : saveEvery ∣ st.results.length + 1 := by
      rw [Nat.dvd_iff_mod_eq_zero]
      simpa using hmod
    simp only [List.length_append, List.length_cons, List.length_nil,
      Nat.add_zero]
    rw [Nat.succ_div_of_dvd hdvd, List.range_succ, List.map_append]
    congr 1
    · rw [h]
      exact List.map_congr_left (fun j hj => (htake _ j hj).symm)
    · simp only [List.map_cons, List.map_nil]
      congr 1
      have hmul : (st.results.length / saveEvery + 1) * saveEvery =
          st.results.length + 1 := by
        rw [← Nat.succ_div_of_dvd hdvd]
        exact Nat.div_mul_cancel hdvd
      rw [hmul,
        show st.results.length + 1 = (st.results ++ [_]).length by simp]
      exact (List.take_length _).symm
  case isFalse hmod =>
    have hnd : ¬ saveEvery ∣ st.results.length + 1 := by
      rw [Nat.dvd_iff_mod_eq_zero]
      simpa using hmod
    simp only [List.length_append, List.length_cons, List.length_nil,
      Nat.add_zero]
    rw [Nat.succ_div_of_not_dvd hnd, h]
    exact List.map_congr_left (fun j hj => (htake _ j hj).symm)

/-- The run loop preserves the checkpoint shape. -/
theorem runLoop_checkpoints (worlds : Nat → World) (saveEvery : Nat) :
    ∀ (leads : List Lead) (st : RunState),
      st.checkpoints = (List.range (st.results.length / saveEvery)).map
        (fun j => st.results.take ((j + 1) * saveEvery)) →
      (runLoop worlds saveEvery leads st).checkpoints =
        (List.range ((runLoop worlds saveEvery leads st).results.length / saveEvery)).map
          (fun j => (runLoop worlds saveEvery leads st).results.take
            ((j + 1) * saveEvery)) := by
  intro leads
  induction leads with
  | nil => intro st h; rw [runLoop]; exact h
  | cons lead rest ih =>
    intro st h
    rw [runLoop]
    exact ih _ (runStep_checkpoints worlds saveEvery lead st h)

/-- `getLastD` of a list extended by one element. -/
theorem getLastD_append_singleton {α : Type} (l : List α) (x d : α) :
    (l ++ [x]).getLastD d = x :=
  List.getLastD_concat _ _ _

/-- C10: during a run with checkpoint interval `K`, the sequence of
persisted checkpoints is exactly the full accumulated result prefix at
every multiple of `K`: after the `(j+1)·K`-th call the first `(j+1)·K`
records are persisted whole; hence when the loop stops after `N` calls the
last persisted checkpoint holds exactly the first `N - (N mod K)`
results. -/
theorem c10_checkpoint_invariant :
    ∀ (worlds : Nat → World) (K : Nat) (leads : List Lead) (limit : Nat)
      (only24h : Bool),
      (run_audit worlds K leads limit only24h).checkpoints =
        (List.range ((run_audit worlds K leads limit only24h).results.length / K)).map
          (fun j => (run_audit worlds K leads limit only24h).results.take
            ((j + 1) * K)) ∧
      (run_audit worlds K leads limit only24h).checkpoints.getLastD [] =
        (run_audit worlds K leads limit only24h).results.take
          ((run_audit worlds K leads limit only24h).results.length -
            (run_audit worlds K leads limit only24h).results.length % K) := by
  intro worlds K leads limit only24h
  have h1 := runLoop_checkpoints worlds K (processedLeads leads limit only24h)
    ⟨[], [], []⟩ (by simp)
  rw [run_audit]
  refine ⟨h1, ?_⟩
  rw [h1]
  set res := (runLoop worlds K (processedLeads leads limit only24h)
    ⟨[], [], []⟩).results with hres
  have hmod : res.length / K * K = res.length - res.length % K := by
    have hdm := Nat.div_add_mod res.length K
    rw [Nat.mul_comm] at hdm
    set q := res.length / K
    omega
  cases hq : res.length / K with
  | zero =>
    simp only [hq, List.range_zero, List.map_nil, List.getLastD_nil]
    rw [hq] at hmod
    simp only [Nat.zero_mul] at hmod
    rw [← hmod]
    simp
  | succ m =>
    rw [List.range_succ, List.map_append, List.map_cons, List.map_nil,
      getLastD_append_singleton]
    congr 1
    rw [← hq]
    exact hmod

end LsaScraper






